import Mathlib

/-!
Verification of the EventTicketer repository (Django app `home`).

The data model and operations below are a shallow embedding of
`src/home/models.py`, `src/home/views.py` and `src/home/forms.py`.
Django `DecimalField` money amounts are represented as scaled integers
(cents); `PositiveIntegerField` counters are represented as `Int` so that
the non-negativity invariant is a theorem rather than a typing artifact.
Fields that no claim observes (timestamps `created_at`/`updated_at`) are
omitted; `date`/`time` are opaque numbers.

The moderation machinery (`moderation_status`, `moderation_notes`,
`moderated_by`, `moderated_at`, `Event.approve`, `Event.reject`) and the
chat view `send_message` are declared in `src/home/urls.py` and exercised
by `src/home/tests.py`, but their defining code is not under `src/`; those
definitions are modelled from the spec and are marked as such below.
-/

namespace EventTicketer

/-- A user of the system, as the views observe it: `id`, Django's
`is_authenticated` flag, and the `user_type` of the user's `userprofile`
(`none` models a user without a `userprofile` attribute, matching the
`hasattr(user, 'userprofile')` probes in the source). -/
structure User where
  id : Nat
  is_authenticated : Bool
  userprofile : Option String
  deriving DecidableEq, Repr

/-- The `Event` model of `src/home/models.py` (lines 6-25).  The fields
through `is_published` come from the source; `is_published` there has
`default=True` but is always supplied by `EventForm` on creation.  The four
moderation fields are Modelled from the spec: the repository's tests and
moderation URLs reference `moderation_status` (initial `"pending"`),
`moderation_notes`, `moderated_by` and `moderated_at`, whose model code is
not under `src/`; per spec section 3 the status is one of
`"pending" | "approved" | "rejected"` and defaults to `"pending"`. -/
structure Event where
  id : Nat
  title : String
  description : String
  date : Nat
  time : Nat
  venue : String
  latitude : Option Int
  longitude : Option Int
  ticket_price : Int
  ticket_availability : Int
  organizer : Nat
  is_published : Bool
  moderation_status : String
  moderation_notes : String
  moderated_by : Option Nat
  moderated_at : Option Nat
  deriving DecidableEq, Repr

/-- The `Order` model of `src/home/models.py` (lines 28-51): attendee and
event are foreign keys (represented by ids), `status` is one of
`"pending" | "paid" | "cancelled"`. -/
structure Order where
  attendee : Nat
  event : Nat
  quantity : Int
  unit_price : Int
  status : String
  deriving DecidableEq, Repr

/-- `Order.total_price` property (models.py lines 49-51):
`quantity * unit_price`. -/
def Order.total_price (o : Order) : Int :=
  o.quantity * o.unit_price

/-- A `CartItem` row of `src/home/models.py` (lines 71-86) for one user's
cart: the event foreign key (by id) and the quantity.  The
`unique_together ('cart', 'event')` constraint makes the event id the key
within a cart. -/
structure CartItem where
  event : Nat
  quantity : Int
  deriving DecidableEq, Repr

/-- `CartItem.total_price` property (models.py lines 84-86): the quantity
times the *event's current* `ticket_price` (the foreign key is followed at
read time; no price snapshot is stored on the cart item).  The current
state of the referenced event is passed explicitly. -/
def CartItem.total_price (item : CartItem) (event : Event) : Int :=
  item.quantity * event.ticket_price

/-- A chat `Message` row of `src/home/models.py` (lines 130-144): the chat
room is per event, so the room is represented by the event id. -/
structure Message where
  event : Nat
  sender : Nat
  content : String
  deriving DecidableEq, Repr

/-- The distinct error reports of the purchase/cart views in
`src/home/views.py`: wrong role, quantity below 1, sold out
(`availability <= 0`), and a request exceeding the remaining availability
(the view's message interpolates the remaining count, carried here as the
constructor argument). -/
inductive ReqError where
  | permissionDenied
  | invalidInput
  | soldOut
  | insufficientAvailability (remaining : Int)
  deriving DecidableEq, Repr

/-- `buy_ticket` of `src/home/views.py` (lines 102-151), for an
already-parsed integer quantity (the view parses the POST field first and
reports a parse failure separately).  The checks are in source order:
role, `quantity < 1`, `ticket_availability <= 0`,
`quantity > ticket_availability`; on success one `Order` with
`status='paid'` and `unit_price = event.ticket_price` is created and the
availability is decremented by the quantity. -/
def buy_ticket (user : User) (event : Event) (quantity : Int) :
    Except ReqError (Event × Order) :=
  if user.userprofile ≠ some "attendee" then
    .error .permissionDenied
  else if quantity < 1 then
    .error .invalidInput
  else if event.ticket_availability ≤ 0 then
    .error .soldOut
  else if quantity > event.ticket_availability then
    .error (.insufficientAvailability event.ticket_availability)
  else
    let order : Order :=
      { attendee := user.id, event := event.id, quantity := quantity,
        unit_price := event.ticket_price, status := "paid" }
    .ok ({ event with
            ticket_availability := event.ticket_availability - quantity },
         order)

/-- The state transition performed by one `buy_ticket` request: on failure
the event row and the order table are untouched and the error is reported;
on success the updated event replaces the old one and exactly the created
order is appended to the order table. -/
def buy_ticket_step (user : User) (event : Event) (quantity : Int)
    (orders : List Order) : Event × List Order × Option ReqError :=
  match buy_ticket user event quantity with
  | .error e => (event, orders, some e)
  | .ok (event2, order) => (event2, orders ++ [order], none)

/-- A concrete attendee, organizer, administrator and anonymous user for
witness instances. -/
def attendee0 : User := { id := 1, is_authenticated := true, userprofile := some "attendee" }

def organizer0 : User := { id := 2, is_authenticated := true, userprofile := some "event_organizer" }

def admin0 : User := { id := 3, is_authenticated := true, userprofile := some "administrator" }

def anon0 : User := { id := 4, is_authenticated := false, userprofile := none }

/-- A concrete published, approved event with 5 tickets at price 50.00
(5000 cents), organized by `organizer0`. -/
def testEvent : Event :=
  { id := 10, title := "Jazz Concert", description := "A concert",
    date := 20241225, time := 1900, venue := "New York City",
    latitude := none, longitude := none,
    ticket_price := 5000, ticket_availability := 5, organizer := 2,
    is_published := true, moderation_status := "approved",
    moderation_notes := "", moderated_by := some 3, moderated_at := some 1 }

/-- Shared helper: the success equation of one `buy_ticket` request for
an attendee with `1 ≤ q ≤ availability`. -/
theorem buy_ticket_step_ok (user : User) (event : Event) (q : Int)
    (orders : List Order)
    (hrole : user.userprofile = some "attendee")
    (h1 : 1 ≤ q) (h2 : q ≤ event.ticket_availability) :
    buy_ticket_step user event q orders =
      ({ event with
          ticket_availability := event.ticket_availability - q },
       orders ++ [{ attendee := user.id, event := event.id, quantity := q,
                    unit_price := event.ticket_price, status := "paid" }],
       none) := by
  have hq : ¬ q < 1 := by omega
  have ha : ¬ event.ticket_availability ≤ 0 := by omega
  have hb : ¬ q > event.ticket_availability := by omega
  simp [buy_ticket_step, buy_ticket, hrole, hq, ha, hb]

/-- Claim C1: for an attendee purchase of quantity `Q` with
`1 ≤ Q ≤ A` (`A` the event's availability), `buy_ticket` leaves the
event's `ticket_availability` at `A − Q` and appends exactly one order
with status `"paid"`, quantity `Q` and `unit_price` equal to the event's
`ticket_price` at the moment of the call. -/
theorem buy_ticket_success (user : User) (event : Event) (q : Int)
    (orders : List Order)
    (hrole : user.userprofile = some "attendee")
    (h1 : 1 ≤ q) (h2 : q ≤ event.ticket_availability) :
    buy_ticket_step user event q orders =
      ({ event with
          ticket_availability := event.ticket_availability - q },
       orders ++ [{ attendee := user.id, event := event.id, quantity := q,
                    unit_price := event.ticket_price, status := "paid" }],
       none) :=
  buy_ticket_step_ok user event q orders hrole h1 h2

/-- Witness for C1: `attendee0` buys 2 of the 5 tickets of `testEvent`
at price 5000; availability drops to 3 and one paid order is appended. -/
theorem buy_ticket_success_witness :
    attendee0.userprofile = some "attendee" ∧ (1 : Int) ≤ 2 ∧
      (2 : Int) ≤ testEvent.ticket_availability ∧
      buy_ticket_step attendee0 testEvent 2 [] =
        ({ testEvent with ticket_availability := 3 },
         [{ attendee := 1, event := 10, quantity := 2,
            unit_price := 5000, status := "paid" }],
         none) :=
  ⟨rfl, by norm_num, by decide,
   buy_ticket_success attendee0 testEvent 2 [] rfl (by norm_num) (by decide)⟩

/-- Claim C2: `buy_ticket` fails, appending no order and leaving the
availability unchanged, exactly in the four distinctly-reported cases of
the source (in the source's checking order: wrong role, quantity below 1,
availability 0, quantity above the remaining availability — the last
reporting the remaining count); for any other attendee request with
`1 ≤ quantity ≤ availability` it succeeds. -/
theorem buy_ticket_failure_cases (user : User) (event : Event) (q : Int)
    (orders : List Order) :
    (user.userprofile ≠ some "attendee" →
      buy_ticket_step user event q orders =
        (event, orders, some .permissionDenied)) ∧
    (user.userprofile = some "attendee" → q < 1 →
      buy_ticket_step user event q orders =
        (event, orders, some .invalidInput)) ∧
    (user.userprofile = some "attendee" → 1 ≤ q →
      event.ticket_availability = 0 →
      buy_ticket_step user event q orders =
        (event, orders, some .soldOut)) ∧
    (user.userprofile = some "attendee" → 1 ≤ q →
      0 < event.ticket_availability → event.ticket_availability < q →
      buy_ticket_step user event q orders =
        (event, orders,
         some (.insufficientAvailability event.ticket_availability))) ∧
    (user.userprofile = some "attendee" → 1 ≤ q →
      q ≤ event.ticket_availability →
      buy_ticket_step user event q orders =
        ({ event with
            ticket_availability := event.ticket_availability - q },
         orders ++ [{ attendee := user.id, event := event.id,
                      quantity := q, unit_price := event.ticket_price,
                      status := "paid" }],
         none)) := by
  refine ⟨fun hrole => ?_, fun hrole hq => ?_, fun hrole hq ha => ?_,
          fun hrole hq ha hb => ?_,
          fun hrole hq ha => buy_ticket_step_ok user event q orders hrole hq ha⟩
  · simp [buy_ticket_step, buy_ticket, hrole]
  · simp [buy_ticket_step, buy_ticket, hrole, hq]
  · have h1 : ¬ q < 1 := by omega
    have h2 : event.ticket_availability ≤ 0 := by omega
    simp [buy_ticket_step, buy_ticket, hrole, h1, h2]
  · have h1 : ¬ q < 1 := by omega
    have h2 : ¬ event.ticket_availability ≤ 0 := by omega
    have h3 : q > event.ticket_availability := by omega
    simp [buy_ticket_step, buy_ticket, hrole, h1, h2, h3]

/-- A concrete sold-out event for witnesses: `testEvent` with 0 tickets
left. -/
def soldOutEvent : Event := { testEvent with ticket_availability := 0 }

/-- Witness for C2: each of the five cases of `buy_ticket_failure_cases`
at a concrete input — `organizer0` is refused, quantity 0 is refused,
`soldOutEvent` reports sold out, quantity 9 against 5 remaining reports
the remaining count 5, and `attendee0` buying 2 succeeds. -/
theorem buy_ticket_failure_cases_witness :
    buy_ticket_step organizer0 testEvent 2 [] =
      (testEvent, [], some .permissionDenied) ∧
    buy_ticket_step attendee0 testEvent 0 [] =
      (testEvent, [], some .invalidInput) ∧
    buy_ticket_step attendee0 soldOutEvent 2 [] =
      (soldOutEvent, [], some .soldOut) ∧
    buy_ticket_step attendee0 testEvent 9 [] =
      (testEvent, [], some (.insufficientAvailability 5)) ∧
    buy_ticket_step attendee0 testEvent 2 [] =
      ({ testEvent with ticket_availability := 3 },
       [{ attendee := 1, event := 10, quantity := 2,
          unit_price := 5000, status := "paid" }],
       none) :=
  ⟨(buy_ticket_failure_cases organizer0 testEvent 2 []).1 (by decide),
   (buy_ticket_failure_cases attendee0 testEvent 0 []).2.1 rfl (by norm_num),
   (buy_ticket_failure_cases attendee0 soldOutEvent 2 []).2.2.1 rfl
     (by norm_num) (by decide),
   (buy_ticket_failure_cases attendee0 testEvent 9 []).2.2.2.1 rfl
     (by norm_num) (by decide) (by decide),
   (buy_ticket_failure_cases attendee0 testEvent 2 []).2.2.2.2 rfl
     (by norm_num) (by decide)⟩

/-- The public listing filter of `index` (`src/home/views.py` line 19):
`Event.objects.filter(is_published=True)`. -/
def published_events (events : List Event) : List Event :=
  events.filter (fun e => e.is_published)

/-- Claim C9: `buy_ticket` performs no `is_published` check — for an
unpublished event an attendee purchase with `1 ≤ q ≤ availability`
succeeds and creates a paid order exactly as for a published event, even
though the unpublished event is excluded from the public listing. -/
theorem buy_ticket_ignores_published (user : User) (event : Event)
    (q : Int) (orders : List Order) (events : List Event)
    (hpub : event.is_published = false)
    (hrole : user.userprofile = some "attendee")
    (h1 : 1 ≤ q) (h2 : q ≤ event.ticket_availability) :
    buy_ticket_step user event q orders =
      ({ event with
          ticket_availability := event.ticket_availability - q },
       orders ++ [{ attendee := user.id, event := event.id, quantity := q,
                    unit_price := event.ticket_price, status := "paid" }],
       none) ∧
    event ∉ published_events events := by
  refine ⟨buy_ticket_step_ok user event q orders hrole h1 h2, ?_⟩
  simp [published_events, List.mem_filter, hpub]

/-- A concrete unpublished event for witnesses. -/
def draftEvent : Event :=
  { testEvent with
    id := 11, is_published := false,
    moderation_status := "pending", moderated_by := none,
    moderated_at := none }

/-- Witness for C9: `attendee0` successfully buys 2 tickets of the
unpublished `draftEvent`, which the public listing excludes. -/
theorem buy_ticket_ignores_published_witness :
    draftEvent.is_published = false ∧
    attendee0.userprofile = some "attendee" ∧ (1 : Int) ≤ 2 ∧
    (2 : Int) ≤ draftEvent.ticket_availability ∧
    (buy_ticket_step attendee0 draftEvent 2 [] =
      ({ draftEvent with ticket_availability := 3 },
       [{ attendee := 1, event := 11, quantity := 2,
          unit_price := 5000, status := "paid" }],
       none) ∧
     draftEvent ∉ published_events [draftEvent, testEvent]) :=
  ⟨rfl, rfl, by norm_num, by decide,
   buy_ticket_ignores_published attendee0 draftEvent 2 []
     [draftEvent, testEvent] rfl rfl (by norm_num) (by decide)⟩

/-- `ChatRoom.can_user_access` of `src/home/models.py` (lines 114-127):
false for an unauthenticated user; false when the user has no
`userprofile` or its `user_type` is not `"attendee"`; otherwise true iff
some order row with this attendee, this room's event and status `"paid"`
exists.  The room is identified by its event id and the order table is
passed explicitly. -/
def can_user_access (room_event : Nat) (user : User)
    (orders : List Order) : Bool :=
  if !user.is_authenticated then false
  else if user.userprofile ≠ some "attendee" then false
  else orders.any (fun o =>
    o.attendee == user.id && o.event == room_event && o.status == "paid")

/-- Claim C4: `can_user_access` returns false for every unauthenticated
user and for every user whose role is not `"attendee"` (organizers and
administrators included), and for an authenticated attendee returns true
iff at least one paid order for that (user, event) pair exists. -/
theorem can_user_access_spec (room_event : Nat) (user : User)
    (orders : List Order) :
    (user.is_authenticated = false →
      can_user_access room_event user orders = false) ∧
    (user.userprofile ≠ some "attendee" →
      can_user_access room_event user orders = false) ∧
    (user.is_authenticated = true → user.userprofile = some "attendee" →
      (can_user_access room_event user orders = true ↔
        ∃ o ∈ orders, o.attendee = user.id ∧ o.event = room_event ∧
          o.status = "paid")) := by
  refine ⟨fun hauth => ?_, fun hrole => ?_, fun hauth hrole => ?_⟩
  · simp [can_user_access, hauth]
  · simp [can_user_access, hrole]
  · simp only [can_user_access, hauth, hrole]
    simp [List.any_eq_true, and_assoc]

/-- Witness for C4: with one paid order by `attendee0` for event 10,
access is granted to `attendee0` and denied to the organizer, the
administrator and the anonymous user. -/
theorem can_user_access_spec_witness :
    can_user_access 10 anon0
        [{ attendee := 1, event := 10, quantity := 2, unit_price := 5000,
           status := "paid" }] = false ∧
    can_user_access 10 organizer0
        [{ attendee := 1, event := 10, quantity := 2, unit_price := 5000,
           status := "paid" }] = false ∧
    (can_user_access 10 attendee0
        [{ attendee := 1, event := 10, quantity := 2, unit_price := 5000,
           status := "paid" }] = true ↔
      ∃ o ∈ [({ attendee := 1, event := 10, quantity := 2,
                unit_price := 5000, status := "paid" } : Order)],
        o.attendee = attendee0.id ∧ o.event = 10 ∧ o.status = "paid") :=
  ⟨(can_user_access_spec 10 anon0 _).1 rfl,
   (can_user_access_spec 10 organizer0 _).2.1 (by decide),
   (can_user_access_spec 10 attendee0 _).2.2 rfl rfl⟩

/-- `EventForm` of `src/home/forms.py` (lines 4-56): the model form with
exactly the fields `title, description, date, time, venue, latitude,
longitude, ticket_price, ticket_availability, is_published` — note that
the publish flag is organizer-editable form data. -/
structure EventForm where
  title : String
  description : String
  date : Nat
  time : Nat
  venue : String
  latitude : Option Int
  longitude : Option Int
  ticket_price : Int
  ticket_availability : Int
  is_published : Bool
  deriving DecidableEq, Repr

/-- Django server-side validation of `EventForm`: the required character
fields must be non-empty and `ticket_availability` is a
`PositiveIntegerField`, so a negative value is rejected.  (The widget
`min` attributes are client-side only; `ticket_price` is a `DecimalField`
with no server-side bound.) -/
def EventForm.is_valid (f : EventForm) : Bool :=
  !(f.title == "") && !(f.description == "") && !(f.venue == "") &&
    decide (0 ≤ f.ticket_availability)

/-- `form.save(commit=False)` field assignment: copy every form field
onto the event; the moderation fields and the organizer are not form
fields and stay untouched. -/
def apply_event_form (event : Event) (f : EventForm) : Event :=
  { event with
    title := f.title, description := f.description, date := f.date,
    time := f.time, venue := f.venue, latitude := f.latitude,
    longitude := f.longitude, ticket_price := f.ticket_price,
    ticket_availability := f.ticket_availability,
    is_published := f.is_published }

/-- `create_event` of `src/home/views.py` (lines 71-92): only an
`event_organizer` may create; on a valid form the event is saved with
`organizer = request.user`.  The moderation fields are Modelled from the
spec: `moderation_status` starts at its default `"pending"` and the other
moderation fields are unset (their model definition is not under `src/`;
spec section 3 gives the defaults).  `is_published`, however, comes from
the form (src `forms.py` line 7), so it equals the submitted checkbox. -/
def create_event (user : User) (f : EventForm) (newId : Nat) :
    Except ReqError Event :=
  if user.userprofile ≠ some "event_organizer" then
    .error .permissionDenied
  else if f.is_valid then
    .ok { id := newId, title := f.title, description := f.description,
          date := f.date, time := f.time, venue := f.venue,
          latitude := f.latitude, longitude := f.longitude,
          ticket_price := f.ticket_price,
          ticket_availability := f.ticket_availability,
          organizer := user.id, is_published := f.is_published,
          moderation_status := "pending", moderation_notes := "",
          moderated_by := none, moderated_at := none }
  else
    .error .invalidInput

/-- `edit_event` of `src/home/views.py` (lines 185-217): the requester
must be the event's organizer and have the organizer role; a valid form
overwrites the form fields (moderation state untouched). -/
def edit_event (user : User) (event : Event) (f : EventForm) :
    Except ReqError Event :=
  if event.organizer ≠ user.id then .error .permissionDenied
  else if user.userprofile ≠ some "event_organizer" then
    .error .permissionDenied
  else if f.is_valid then .ok (apply_event_form event f)
  else .error .invalidInput

/-- `add_to_cart` of `src/home/views.py` (lines 360-417) for an
already-parsed quantity, acting on the requesting user's cart item list.
Checks in source order: role, `quantity < 1`, sold out, quantity over
availability; then `get_or_create` on the `(cart, event)` key — a new
item is created with the given quantity, an existing one is incremented,
failing with the remaining count if the new total would exceed the live
availability (in which case the item is left at its old quantity). -/
def add_to_cart (user : User) (event : Event) (quantity : Int)
    (items : List CartItem) : Except ReqError (List CartItem) :=
  if user.userprofile ≠ some "attendee" then .error .permissionDenied
  else if quantity < 1 then .error .invalidInput
  else if event.ticket_availability ≤ 0 then .error .soldOut
  else if quantity > event.ticket_availability then
    .error (.insufficientAvailability event.ticket_availability)
  else
    match items.find? (fun it => it.event == event.id) with
    | none => .ok (items ++ [{ event := event.id, quantity := quantity }])
    | some item =>
        let new_quantity := item.quantity + quantity
        if new_quantity > event.ticket_availability then
          .error (.insufficientAvailability event.ticket_availability)
        else
          .ok (items.map (fun x =>
            if x.event == event.id then { x with quantity := new_quantity }
            else x))

/-- The state transition of one `add_to_cart` request: on failure the
cart is untouched. -/
def add_to_cart_step (user : User) (event : Event) (quantity : Int)
    (items : List CartItem) : List CartItem × Option ReqError :=
  match add_to_cart user event quantity items with
  | .error e => (items, some e)
  | .ok items2 => (items2, none)

/-- `update_cart_quantity` of `src/home/views.py` (lines 453-486) for the
cart item keyed by the given event: role check, `quantity < 1`, quantity
over the item's event's availability; on success the stored quantity is
overwritten. -/
def update_cart_quantity (user : User) (event : Event) (quantity : Int)
    (items : List CartItem) : Except ReqError (List CartItem) :=
  if user.userprofile ≠ some "attendee" then .error .permissionDenied
  else if quantity < 1 then .error .invalidInput
  else if quantity > event.ticket_availability then
    .error (.insufficientAvailability event.ticket_availability)
  else
    .ok (items.map (fun x =>
      if x.event == event.id then { x with quantity := quantity } else x))

/-- `remove_from_cart` of `src/home/views.py` (lines 438-451): the item
for the given event is deleted from the requester's cart. -/
def remove_from_cart (items : List CartItem) (eventId : Nat) :
    List CartItem :=
  items.filter (fun x => !(x.event == eventId))

/-- Cart items whose entry is for a different event are not touched by
the increment `map` of `add_to_cart`/`update_cart_quantity`. -/
theorem map_update_of_find?_none (items : List CartItem) (eid : Nat)
    (g : CartItem → CartItem)
    (h : items.find? (fun it => it.event == eid) = none) :
    items.map (fun x => if x.event == eid then g x else x) = items := by
  induction items with
  | nil => rfl
  | cons a l ih =>
      rw [List.find?_cons] at h
      split at h
      · exact absurd h (by simp)
      · next hb =>
          have hne : a.event ≠ eid := by simpa using hb
          simp only [List.map_cons, ih h, List.cons.injEq, and_true]
          simp [hne]

/-- Claim C5: cart adds are idempotent-additive.  For an attendee and an
event with no cart item yet: adding `q1` and then `q2` (both at least 1)
with `q1 + q2` within the live availability yields exactly one cart item
for the event, of quantity `q1 + q2`; and when `q1 + q2` exceeds the
availability the second call fails with `insufficientAvailability`
carrying the remaining count and the cart item keeps quantity `q1`. -/
theorem add_to_cart_additive (user : User) (event : Event) (q1 q2 : Int)
    (items : List CartItem)
    (hrole : user.userprofile = some "attendee")
    (hfind : items.find? (fun it => it.event == event.id) = none) :
    (1 ≤ q1 → 1 ≤ q2 → q1 + q2 ≤ event.ticket_availability →
      add_to_cart user event q1 items =
        .ok (items ++ [{ event := event.id, quantity := q1 }]) ∧
      add_to_cart user event q2
          (items ++ [{ event := event.id, quantity := q1 }]) =
        .ok (items ++ [{ event := event.id, quantity := q1 + q2 }]) ∧
      List.countP (fun it => it.event == event.id)
          (items ++ [{ event := event.id, quantity := q1 + q2 }]) = 1) ∧
    (1 ≤ q1 → q1 ≤ event.ticket_availability → 1 ≤ q2 →
      event.ticket_availability < q1 + q2 →
      add_to_cart user event q1 items =
        .ok (items ++ [{ event := event.id, quantity := q1 }]) ∧
      add_to_cart_step user event q2
          (items ++ [{ event := event.id, quantity := q1 }]) =
        (items ++ [{ event := event.id, quantity := q1 }],
         some (.insufficientAvailability event.ticket_availability))) := by
  have hcount0 : items.countP (fun it => it.event == event.id) = 0 := by
    rw [List.countP_eq_zero]
    exact fun a ha => by simpa using List.find?_eq_none.mp hfind a ha
  have hf2 : (items ++ [{ event := event.id, quantity := q1 }] :
      List CartItem).find? (fun it => it.event == event.id) =
      some { event := event.id, quantity := q1 } := by
    rw [List.find?_append, hfind]
    simp
  constructor
  · intro h1 h2 hsum
    have c1 : ¬ q1 < 1 := by omega
    have c2 : ¬ event.ticket_availability ≤ 0 := by omega
    have c3 : ¬ q1 > event.ticket_availability := by omega
    have c4 : ¬ q2 < 1 := by omega
    have c5 : ¬ q2 > event.ticket_availability := by omega
    refine ⟨by simp [add_to_cart, hrole, c1, c2, c3, hfind], ?_, ?_⟩
    · have c6 : ¬ q1 + q2 > event.ticket_availability := by omega
      simp only [add_to_cart, hrole, c2, c4, c5, c6, hf2, ne_eq,
        not_true_eq_false, if_false, if_neg c4, if_neg c2, if_neg c5,
        if_neg c6]
      rw [List.map_append,
        map_update_of_find?_none items event.id _ hfind]
      simp
    · rw [List.countP_append, hcount0]
      simp
  · intro h1 h2 h3 hover
    have c1 : ¬ q1 < 1 := by omega
    have c2 : ¬ event.ticket_availability ≤ 0 := by omega
    have c3 : ¬ q1 > event.ticket_availability := by omega
    have c4 : ¬ q2 < 1 := by omega
    refine ⟨by simp [add_to_cart, hrole, c1, c2, c3, hfind], ?_⟩
    by_cases hq2 : q2 > event.ticket_availability
    · simp [add_to_cart_step, add_to_cart, hrole, c2, c4, hq2]
    · have c6 : ({ event := event.id, quantity := q1 } :
          CartItem).quantity + q2 > event.ticket_availability := by
        simpa using hover
      simp [add_to_cart_step, add_to_cart, hrole, c2, c4, hq2, hf2, c6]

/-- Witness for C5: against `testEvent` (5 tickets), adding 2 then 3 to
an empty cart yields the single item of quantity 5; adding 3 then 3
leaves the item at 3 and reports the remaining count 5. -/
theorem add_to_cart_additive_witness :
    (add_to_cart attendee0 testEvent 2 [] =
        .ok [{ event := 10, quantity := 2 }] ∧
      add_to_cart attendee0 testEvent 3 [{ event := 10, quantity := 2 }] =
        .ok [{ event := 10, quantity := 2 + 3 }] ∧
      ([{ event := 10, quantity := 2 + 3 }] : List CartItem).countP
          (fun it => it.event == testEvent.id) = 1) ∧
    (add_to_cart attendee0 testEvent 3 [] =
        .ok [{ event := 10, quantity := 3 }] ∧
      add_to_cart_step attendee0 testEvent 3
          [{ event := 10, quantity := 3 }] =
        ([{ event := 10, quantity := 3 }],
         some (.insufficientAvailability 5))) :=
  ⟨(add_to_cart_additive attendee0 testEvent 2 3 [] rfl rfl).1
      (by norm_num) (by norm_num) (by decide),
   (add_to_cart_additive attendee0 testEvent 3 3 [] rfl rfl).2
      (by norm_num) (by decide) (by norm_num) (by decide)⟩

/-- Inversion of a successful `buy_ticket`: the order snapshots the price
and the event lost exactly the bought quantity, which was within the
availability. -/
theorem buy_ticket_ok_inv (u : User) (e : Event) (q : Int) (e2 : Event)
    (o : Order) (h : buy_ticket u e q = .ok (e2, o)) :
    e2 = { e with ticket_availability := e.ticket_availability - q } ∧
    o = { attendee := u.id, event := e.id, quantity := q,
          unit_price := e.ticket_price, status := "paid" } ∧
    1 ≤ q ∧ q ≤ e.ticket_availability := by
  simp only [buy_ticket] at h
  split_ifs at h with h1 h2 h3 h4
  simp only [Except.ok.injEq, Prod.mk.injEq] at h
  obtain ⟨he, ho⟩ := h
  exact ⟨he.symm, ho.symm, by omega, by omega⟩

/-- Inversion of a successful `edit_event`: the saved event is the form
applied to the old event, and the form was valid. -/
theorem edit_event_ok_inv (u : User) (e : Event) (f : EventForm)
    (e2 : Event) (h : edit_event u e f = .ok e2) :
    e2 = apply_event_form e f ∧ f.is_valid = true := by
  simp only [edit_event] at h
  split_ifs at h with h1 h2 h3
  exact ⟨(Except.ok.inj h).symm, h3⟩

/-- Claim C10: `CartItem.total_price` follows the event's current
`ticket_price` — after an organizer edit it equals the quantity times the
form's new price — while an order created by `buy_ticket` snapshots
`unit_price` at call time, so `Order.total_price` stays the quantity
times the price that was current at purchase. -/
theorem cart_total_live_price (u : User) (e : Event) (f : EventForm)
    (e2 : Event) (item : CartItem) (buyer : User) (q : Int) (e3 : Event)
    (o : Order) :
    (edit_event u e f = .ok e2 →
      CartItem.total_price item e2 = item.quantity * f.ticket_price) ∧
    (buy_ticket buyer e q = .ok (e3, o) →
      o.unit_price = e.ticket_price ∧
      Order.total_price o = o.quantity * e.ticket_price) := by
  constructor
  · intro h
    obtain ⟨he2, -⟩ := edit_event_ok_inv u e f e2 h
    simp [CartItem.total_price, he2, apply_event_form]
  · intro h
    obtain ⟨-, ho, -, -⟩ := buy_ticket_ok_inv buyer e q e3 o h
    simp [Order.total_price, ho]

/-- A form that changes `testEvent`'s price to 99.99 (9999 cents). -/
def repriceForm : EventForm :=
  { title := "Jazz Concert", description := "A concert", date := 20241225,
    time := 1900, venue := "New York City", latitude := none,
    longitude := none, ticket_price := 9999, ticket_availability := 5,
    is_published := true }

/-- Witness for C10: after `organizer0` reprices `testEvent` to 9999, a
cart item of quantity 2 reads a total of `2 * 9999`, while the order from
buying 2 tickets before the edit keeps total `2 * 5000`. -/
theorem cart_total_live_price_witness :
    (CartItem.total_price { event := 10, quantity := 2 }
        (apply_event_form testEvent repriceForm) =
      (2 : Int) * 9999) ∧
    ({ attendee := 1, event := 10, quantity := 2, unit_price := 5000,
       status := "paid" } : Order).unit_price = testEvent.ticket_price ∧
    Order.total_price
        { attendee := 1, event := 10, quantity := 2, unit_price := 5000,
          status := "paid" } =
      (2 : Int) * testEvent.ticket_price :=
  ⟨(cart_total_live_price organizer0 testEvent repriceForm
      (apply_event_form testEvent repriceForm)
      { event := 10, quantity := 2 } attendee0 2
      { testEvent with ticket_availability := 3 }
      { attendee := 1, event := 10, quantity := 2, unit_price := 5000,
        status := "paid" }).1 rfl,
   (cart_total_live_price organizer0 testEvent repriceForm
      (apply_event_form testEvent repriceForm)
      { event := 10, quantity := 2 } attendee0 2
      { testEvent with ticket_availability := 3 }
      { attendee := 1, event := 10, quantity := 2, unit_price := 5000,
        status := "paid" }).2 rfl⟩

/-- The moderation failure report: missing rejection notes. -/
inductive ModerationError where
  | validationError
  deriving DecidableEq, Repr

/-- Modelled from the spec: `Event.approve` (spec section 4.3) — its code
is referenced by `src/home/tests.py` and the moderation URLs but is not
under `src/`.  It sets `moderation_status = "approved"`,
`is_published = true`, `moderated_by = admin`, `moderated_at = now` and
`moderation_notes = notes` (notes may be empty). -/
def Event.approve (e : Event) (adminId : Nat) (notes : String)
    (now : Nat) : Event :=
  { e with
    moderation_status := "approved", is_published := true,
    moderated_by := some adminId, moderated_at := some now,
    moderation_notes := notes }

/-- Modelled from the spec: `Event.reject` (spec section 4.3) — its code
is referenced by `src/home/tests.py` and the moderation URLs but is not
under `src/`.  It requires non-empty notes (otherwise it fails with a
`ValidationError` and changes nothing) and sets
`moderation_status = "rejected"`, `is_published = false`,
`moderated_by = admin`, `moderated_at = now`,
`moderation_notes = notes`. -/
def Event.reject (e : Event) (adminId : Nat) (notes : String)
    (now : Nat) : Except ModerationError Event :=
  if notes = "" then .error .validationError
  else
    .ok { e with
          moderation_status := "rejected", is_published := false,
          moderated_by := some adminId, moderated_at := some now,
          moderation_notes := notes }

/-- The state transition of one reject request: on failure the event row
is untouched. -/
def reject_step (e : Event) (adminId : Nat) (notes : String) (now : Nat) :
    Event × Option ModerationError :=
  match e.reject adminId notes now with
  | .error err => (e, some err)
  | .ok e2 => (e2, none)

/-- Claim C6: rejecting with empty notes fails with `ValidationError`
and leaves the event (its `moderation_status`, `is_published` and
`moderation_notes`) unchanged; with non-empty notes an event in status
`"pending"` or `"approved"` moves to `"rejected"` with
`is_published = false`, `moderated_by = admin`, `moderated_at = now`
and `moderation_notes = notes`. -/
theorem reject_spec (e : Event) (adminId : Nat) (notes : String)
    (now : Nat) :
    (notes = "" →
      reject_step e adminId notes now = (e, some .validationError)) ∧
    (notes ≠ "" →
      e.moderation_status = "pending" ∨ e.moderation_status = "approved" →
      reject_step e adminId notes now =
        ({ e with
            moderation_status := "rejected", is_published := false,
            moderated_by := some adminId, moderated_at := some now,
            moderation_notes := notes }, none)) := by
  constructor
  · intro h
    simp [reject_step, Event.reject, h]
  · intro h _
    simp [reject_step, Event.reject, h]

/-- Witness for C6: rejecting the approved `testEvent` with empty notes
changes nothing; rejecting it with notes `"Spam"` at time 5 moves it to
rejected, unpublished, with the audit fields set. -/
theorem reject_spec_witness :
    reject_step testEvent 3 "" 5 = (testEvent, some .validationError) ∧
    (testEvent.moderation_status = "pending" ∨
      testEvent.moderation_status = "approved") ∧
    reject_step testEvent 3 "Spam" 5 =
      ({ testEvent with
          moderation_status := "rejected", is_published := false,
          moderated_by := some 3, moderated_at := some 5,
          moderation_notes := "Spam" }, none) :=
  ⟨(reject_spec testEvent 3 "" 5).1 rfl,
   Or.inr rfl,
   (reject_spec testEvent 3 "Spam" 5).2 (by decide) (Or.inr rfl)⟩

/-- Inversion of a successful `create_event`: the requester was an
organizer, the form was valid, and the saved row is the form's fields
with `organizer = user`, `moderation_status = "pending"` and the other
moderation fields unset. -/
theorem create_event_ok_inv (u : User) (f : EventForm) (newId : Nat)
    (e : Event) (h : create_event u f newId = .ok e) :
    e = { id := newId, title := f.title, description := f.description,
          date := f.date, time := f.time, venue := f.venue,
          latitude := f.latitude, longitude := f.longitude,
          ticket_price := f.ticket_price,
          ticket_availability := f.ticket_availability,
          organizer := u.id, is_published := f.is_published,
          moderation_status := "pending", moderation_notes := "",
          moderated_by := none, moderated_at := none } := by
  simp only [create_event] at h
  split_ifs at h with h1 h2
  exact (Except.ok.inj h).symm

/-- The concrete event produced by `create_event` when `organizer0`
submits `repriceForm` — whose publish checkbox is set — as a new event
with id 12. -/
def pubPendingEvent : Event :=
  { id := 12, title := "Jazz Concert", description := "A concert",
    date := 20241225, time := 1900, venue := "New York City",
    latitude := none, longitude := none, ticket_price := 9999,
    ticket_availability := 5, organizer := 2, is_published := true,
    moderation_status := "pending", moderation_notes := "",
    moderated_by := none, moderated_at := none }

/-- Counterexample to claim C3: `create_event` saves the form's
`is_published` value (src `forms.py` line 7 exposes the flag), so an
organizer submitting the form with the publish checkbox set creates an
event that is published while its `moderation_status` is still
`"pending"` — neither is the event created with `is_published = false`,
nor does `is_published = true` imply `moderation_status = "approved"`. -/
theorem event_creation_publish_counterexample :
    create_event organizer0 repriceForm 12 = .ok pubPendingEvent ∧
    pubPendingEvent.is_published = true ∧
    pubPendingEvent.moderation_status = "pending" ∧
    pubPendingEvent.moderation_status ≠ "approved" :=
  ⟨rfl, rfl, rfl, by decide⟩

/-- Claim C3 as amended: every created event has
`moderation_status = "pending"`, and its `is_published` equals the
submitted form flag (so it is false exactly when the organizer leaves the
publish checkbox unchecked); the approve transition sets
`is_published = true` together with `moderation_status = "approved"`, and
a successful rejection clears `is_published` — so the invariant
"`is_published` only if approved" is established by the moderation
transitions and holds for creations that leave the publish flag unset,
but not for form submissions that set it. -/
theorem event_creation_moderation_amended (u : User) (f : EventForm)
    (newId : Nat) (e : Event) (e2 : Event) (adminId : Nat)
    (notes : String) (now : Nat) (e3 : Event) :
    (create_event u f newId = .ok e →
      e.moderation_status = "pending" ∧
      e.is_published = f.is_published) ∧
    ((Event.approve e2 adminId notes now).is_published = true ∧
      (Event.approve e2 adminId notes now).moderation_status =
        "approved") ∧
    (Event.reject e2 adminId notes now = .ok e3 →
      e3.is_published = false ∧
      e3.moderation_status = "rejected") := by
  refine ⟨fun h => ?_, ⟨rfl, rfl⟩, fun h => ?_⟩
  · rw [create_event_ok_inv u f newId e h]
    exact ⟨rfl, rfl⟩
  · simp only [Event.reject] at h
    split_ifs at h with h1
    rw [← Except.ok.inj h]
    exact ⟨rfl, rfl⟩

/-- Witness for C3 (amended): creating from a form with the flag unset
gives a pending, unpublished event; approving `draftEvent` publishes it
as approved; rejecting `testEvent` with notes unpublishes it. -/
theorem event_creation_moderation_amended_witness :
    (create_event organizer0 { repriceForm with is_published := false }
        13 =
      .ok { pubPendingEvent with id := 13, is_published := false } ∧
      ({ pubPendingEvent with
          id := 13, is_published := false } : Event).moderation_status =
        "pending" ∧
      ({ pubPendingEvent with
          id := 13, is_published := false } : Event).is_published =
        false) ∧
    ((Event.approve draftEvent 3 "ok" 7).is_published = true ∧
      (Event.approve draftEvent 3 "ok" 7).moderation_status =
        "approved") ∧
    (({ testEvent with
          moderation_status := "rejected", is_published := false,
          moderated_by := some 3, moderated_at := some 5,
          moderation_notes := "Spam" } : Event).is_published = false ∧
      ({ testEvent with
          moderation_status := "rejected", is_published := false,
          moderated_by := some 3, moderated_at := some 5,
          moderation_notes := "Spam" } : Event).moderation_status =
        "rejected") :=
  ⟨⟨rfl,
    (event_creation_moderation_amended organizer0
      { repriceForm with is_published := false } 13
      { pubPendingEvent with id := 13, is_published := false }
      draftEvent 3 "ok" 7 testEvent).1 rfl⟩,
   (event_creation_moderation_amended organizer0
      { repriceForm with is_published := false } 13
      { pubPendingEvent with id := 13, is_published := false }
      draftEvent 3 "ok" 7 testEvent).2.1,
   (event_creation_moderation_amended organizer0
      { repriceForm with is_published := false } 13
      { pubPendingEvent with id := 13, is_published := false }
      testEvent 3 "Spam" 5
      { testEvent with
        moderation_status := "rejected", is_published := false,
        moderated_by := some 3, moderated_at := some 5,
        moderation_notes := "Spam" }).2.2 rfl⟩

/-- Python's `str.strip()` on a string: drop leading and trailing
whitespace characters.  (Defined over the character list so that it is
fully evaluable.) -/
def strip (s : String) : String :=
  String.mk
    (((s.data.dropWhile Char.isWhitespace).reverse.dropWhile
        Char.isWhitespace).reverse)

/-- The chat failure reports: not entitled, or invalid content. -/
inductive ChatError where
  | forbidden
  | validationError
  deriving DecidableEq, Repr

/-- Modelled from the spec: the `send_message` view (declared at
`src/home/urls.py` line 27 and exercised by `src/home/tests.py`; its code
is not under `src/`).  Per spec section 4.4: the sender must pass
`can_user_access` (else forbidden); the content is trimmed and must be
non-empty and at most 1000 characters (else `ValidationError`, no message
created); on success the message with the trimmed content is appended to
the event's room. -/
def send_message (user : User) (eventId : Nat) (orders : List Order)
    (content : String) (msgs : List Message) :
    Except ChatError (List Message) :=
  if !(can_user_access eventId user orders) then .error .forbidden
  else
    let trimmed := strip content
    if trimmed = "" then .error .validationError
    else if trimmed.length > 1000 then .error .validationError
    else
      .ok (msgs ++ [{ event := eventId, sender := user.id,
                      content := trimmed }])

/-- The state transition of one `send_message` request: on failure the
message table is untouched. -/
def send_message_step (user : User) (eventId : Nat) (orders : List Order)
    (content : String) (msgs : List Message) :
    List Message × Option ChatError :=
  match send_message user eventId orders content msgs with
  | .error err => (msgs, some err)
  | .ok msgs2 => (msgs2, none)

/-- Claim C7: for an entitled sender, `send_message` creates no message
and fails with `ValidationError` whenever the content is empty after
trimming whitespace or its trimmed length exceeds 1000 characters, and
for non-empty trimmed content of length at most 1000 it appends exactly
the one new message. -/
theorem send_message_spec (user : User) (eventId : Nat)
    (orders : List Order) (content : String) (msgs : List Message)
    (hacc : can_user_access eventId user orders = true) :
    (strip content = "" →
      send_message_step user eventId orders content msgs =
        (msgs, some .validationError)) ∧
    (1000 < (strip content).length →
      send_message_step user eventId orders content msgs =
        (msgs, some .validationError)) ∧
    (strip content ≠ "" → (strip content).length ≤ 1000 →
      send_message_step user eventId orders content msgs =
        (msgs ++ [{ event := eventId, sender := user.id,
                    content := strip content }], none)) := by
  refine ⟨fun h => ?_, fun h => ?_, fun h1 h2 => ?_⟩
  · simp [send_message_step, send_message, hacc, h]
  · have h0 : ¬ strip content = "" := by
      intro hh
      rw [hh] at h
      simp [String.length] at h
    simp [send_message_step, send_message, hacc, h0, h]
  · have h3 : ¬ (strip content).length > 1000 := by omega
    simp [send_message_step, send_message, hacc, h1, h3]

/-- One paid order of `attendee0` for event 10, entitling chat access. -/
def paidOrder : Order :=
  { attendee := 1, event := 10, quantity := 2, unit_price := 5000,
    status := "paid" }

/-- Witness for C7: `attendee0` (holding `paidOrder`) has whitespace-only
content rejected with no message created, and the content `" hello "`
accepted as the single new message `"hello"`. -/
theorem send_message_spec_witness :
    can_user_access 10 attendee0 [paidOrder] = true ∧
    send_message_step attendee0 10 [paidOrder] "   " [] =
      ([], some .validationError) ∧
    send_message_step attendee0 10 [paidOrder] " hello " [] =
      ([{ event := 10, sender := 1, content := "hello" }], none) :=
  ⟨by decide,
   (send_message_spec attendee0 10 [paidOrder] "   " [] (by decide)).1
     (by decide),
   (send_message_spec attendee0 10 [paidOrder] " hello " []
      (by decide)).2.2 (by decide) (by decide)⟩

/-- The mutable state the claims range over: the event table, the order
table, and the requesting attendee's cart items. -/
structure AppState where
  events : List Event
  orders : List Order
  cart : List CartItem
  deriving DecidableEq, Repr

/-- One successful request of any of the availability-relevant view
operations: a purchase, a cart add, a cart quantity update, a cart item
removal, or an organizer edit.  Failed requests change nothing and are
the identity on the state. -/
inductive Step : AppState → AppState → Prop where
  | buy (st : AppState) (u : User) (q : Int) (i : Nat) (e e2 : Event)
      (o : Order) :
      st.events.get? i = some e →
      buy_ticket u e q = .ok (e2, o) →
      Step st ⟨st.events.set i e2, st.orders ++ [o], st.cart⟩
  | addCart (st : AppState) (u : User) (q : Int) (i : Nat) (e : Event)
      (items2 : List CartItem) :
      st.events.get? i = some e →
      add_to_cart u e q st.cart = .ok items2 →
      Step st ⟨st.events, st.orders, items2⟩
  | updateQty (st : AppState) (u : User) (q : Int) (i : Nat) (e : Event)
      (items2 : List CartItem) :
      st.events.get? i = some e →
      update_cart_quantity u e q st.cart = .ok items2 →
      Step st ⟨st.events, st.orders, items2⟩
  | removeItem (st : AppState) (eid : Nat) :
      Step st ⟨st.events, st.orders, remove_from_cart st.cart eid⟩
  | edit (st : AppState) (u : User) (i : Nat) (e : Event)
      (f : EventForm) (e2 : Event) :
      st.events.get? i = some e →
      edit_event u e f = .ok e2 →
      Step st ⟨st.events.set i e2, st.orders, st.cart⟩

/-- The invariant of claim C8: every event's `ticket_availability` is
non-negative. -/
def availInv (st : AppState) : Prop :=
  ∀ e ∈ st.events, 0 ≤ e.ticket_availability

/-- Claim C8: `ticket_availability ≥ 0` is an invariant — from a state
in which every event's availability is non-negative, every operation
(purchase, cart add/update/remove, event edit) leads to a state in which
every event's availability is still non-negative. -/
theorem availability_nonneg_invariant (st st2 : AppState)
    (hstep : Step st st2) (hinv : availInv st) : availInv st2 := by
  cases hstep with
  | buy u q i e e2 o hget hbuy =>
      intro x hx
      rcases List.mem_or_eq_of_mem_set hx with h | h
      · exact hinv x h
      · subst h
        obtain ⟨he2, -, hq1, hq2⟩ := buy_ticket_ok_inv u e q x o hbuy
        rw [he2]
        show 0 ≤ e.ticket_availability - q
        omega
  | addCart u q i e items2 hget hadd =>
      intro x hx
      exact hinv x hx
  | updateQty u q i e items2 hget hupd =>
      intro x hx
      exact hinv x hx
  | removeItem eid =>
      intro x hx
      exact hinv x hx
  | edit u i e f e2 hget hedit =>
      intro x hx
      rcases List.mem_or_eq_of_mem_set hx with h | h
      · exact hinv x h
      · subst h
        obtain ⟨he2, hval⟩ := edit_event_ok_inv u e f x hedit
        simp only [EventForm.is_valid, Bool.and_eq_true,
          decide_eq_true_eq] at hval
        rw [he2]
        exact hval.2

/-- Witness for C8: in the one-event state holding `testEvent` (whose
availability 5 is non-negative), a purchase of 2 tickets by `attendee0`
steps to a state whose only event has availability 3, still
non-negative. -/
theorem availability_nonneg_invariant_witness :
    availInv ⟨[testEvent].set 0 { testEvent with ticket_availability := 3 },
              [] ++ [paidOrder], []⟩ :=
  availability_nonneg_invariant ⟨[testEvent], [], []⟩
    ⟨[testEvent].set 0 { testEvent with ticket_availability := 3 },
     [] ++ [paidOrder], []⟩
    (Step.buy ⟨[testEvent], [], []⟩ attendee0 2 0 testEvent
      { testEvent with ticket_availability := 3 } paidOrder rfl rfl)
    (by
      intro x hx
      rw [List.mem_singleton] at hx
      subst hx
      decide)

end EventTicketer
